import Mathlib

/-!
Verification of `server/etcdutil/get_leader.go`.

The Go source defines:

  type EtcdLeaderGetter interface {
      EtcdLeaderID() (uint64, error)
  }

  type LeaderGetterWrapper struct {
      Server *etcdserver.EtcdServer
  }

  func (w *LeaderGetterWrapper) EtcdLeaderID() (uint64, error) {
      return w.Server.Lead(), nil
  }

The backing consensus engine (`etcdserver.EtcdServer`) is an external
collaborator: the adapter consumes a single read accessor, `Lead()`,
which yields the engine's locally maintained leader identifier (a
uint64, with 0 used as the engine's sentinel for "no leader known").
We embed the engine as a record carrying that leader field together
with an abstract remainder of engine state that the adapter never
reads, the Go pointer `Server` as an `Option`, and a panic of the Go
method (nil-pointer dereference) as an `Option.none` result.
-/

namespace Etcdutil

/-- Modelled from the spec: the external consensus engine, reduced to the
consumed interface. `lead` is the engine's locally cached leader field
(a uint64 value; its `Lead()` accessor returns it), and `otherState`
stands for every other piece of engine state, which the adapter never
touches. -/
structure EtcdServer where
  lead : Nat
  otherState : Nat
  deriving DecidableEq, Repr

/-- The engine's `Lead()` accessor: returns the locally cached leader
identifier. -/
def EtcdServer.Lead (s : EtcdServer) : Nat :=
  s.lead

/-- Modelled from the spec: the engine's sentinel value meaning "no leader
currently known" (the design notes identify it as the value 0). -/
def noLeaderSentinel : Nat := 0

/-- Go `error` values that this seam could in principle carry (the spec's
error taxonomy). A Go `error` result is embedded as `Option GoError`,
with `Option.none` standing for Go's `nil` error. -/
inductive GoError where
  | noLeaderKnown
  | engineUnavailable
  deriving DecidableEq, Repr

/-- `LeaderGetterWrapper` from the source: it holds the pointer field
`Server *etcdserver.EtcdServer`. The pointer is embedded as an
`Option`: `some s` is a pointer to an engine in state `s`, `none` is
the nil pointer. -/
structure LeaderGetterWrapper where
  Server : Option EtcdServer
  deriving DecidableEq, Repr

/-- Construction of the wrapper, as performed by a Go struct literal
`LeaderGetterWrapper{Server: p}`: it stores the supplied handle
verbatim, with no validation and no side effect. -/
def mkLeaderGetterWrapper (p : Option EtcdServer) : LeaderGetterWrapper :=
  { Server := p }

/-- `(w *LeaderGetterWrapper) EtcdLeaderID() (uint64, error)` from the
source: `return w.Server.Lead(), nil`. The method dereferences
`w.Server` with no nil check; a nil pointer makes the Go call panic,
embedded here as the `Option.none` outcome. On a valid pointer it
returns the pair of the engine's `Lead()` value and the nil error. -/
def EtcdLeaderID (w : LeaderGetterWrapper) : Option (Nat × Option GoError) :=
  w.Server.map (fun s => (s.Lead, none))

/-- The same method with the post-call state made explicit: the body
`return w.Server.Lead(), nil` performs only reads, so the state it
could reach (the wrapper with the engine it references) is returned
unchanged alongside the result. A nil pointer again panics
(`Option.none`). -/
def EtcdLeaderIDRun (w : LeaderGetterWrapper) :
    Option ((Nat × Option GoError) × LeaderGetterWrapper) :=
  w.Server.map (fun s => ((s.Lead, none), w))

/-- The primitive operations the straight-line method body performs, in
order. -/
inductive Step where
  | derefServer
  | readLead
  | retPair
  deriving DecidableEq, Repr

/-- The operation trace of `EtcdLeaderID`: dereference `w.Server`, read
the engine's leader field via `Lead()`, return the pair. The body has
no loop, no retry and no blocking call, so the trace is a fixed finite
list; on a nil pointer execution stops at the dereference. -/
def EtcdLeaderIDTrace (w : LeaderGetterWrapper) : List Step :=
  match w.Server with
  | none => [Step.derefServer]
  | some _ => [Step.derefServer, Step.readLead, Step.retPair]

/-- A sequence of `n` independent calls of the query against the same
wrapper (the engine's leader field held stable across the calls). -/
def repeatedCalls (w : LeaderGetterWrapper) (n : Nat) :
    List (Option (Nat × Option GoError)) :=
  (List.range n).map (fun _ => EtcdLeaderID w)

/-! ## Theorems -/

/-- C1: for every constructed adapter wrapping a backing engine whose
current leader field equals `L`, `EtcdLeaderID` returns the pair
`(L, nil error)`. -/
theorem etcdLeaderID_returns_leader (s : EtcdServer) (L : Nat)
    (h : s.Lead = L) :
    EtcdLeaderID { Server := some s } = some (L, none) := by
  simp [EtcdLeaderID, h]

/-- C1 witness: the spec scenario — engine leader field `7` yields
`(7, nil)`. -/
theorem etcdLeaderID_returns_leader_witness :
    EtcdServer.Lead { lead := 7, otherState := 0 } = 7 ∧
      EtcdLeaderID { Server := some { lead := 7, otherState := 0 } } =
        some (7, none) :=
  ⟨rfl, etcdLeaderID_returns_leader { lead := 7, otherState := 0 } 7 rfl⟩

/-- C2 counterexample: with the engine's leader field at the "no leader"
sentinel, the query returns the pair `(0, nil error)` — a zero-value
identifier with a nil error, not a distinguishable error outcome. -/
theorem sentinel_returns_zero_nil :
    EtcdLeaderID
        { Server := some { lead := noLeaderSentinel, otherState := 0 } } =
      some (0, none) :=
  rfl

/-- C2 amended: when the backing engine's leader field holds the sentinel
"no leader" value, the query returns that sentinel as the identifier
together with a nil error — the no-leader condition is passed through
as a plain `(0, nil)` result, indistinguishable from a valid
identifier 0, and no error outcome is produced. -/
theorem sentinel_passes_through (s : EtcdServer)
    (h : s.Lead = noLeaderSentinel) :
    EtcdLeaderID { Server := some s } = some (noLeaderSentinel, none) := by
  simp [EtcdLeaderID, h]

/-- C2 amended witness: an engine whose leader field is the sentinel 0. -/
theorem sentinel_passes_through_witness :
    EtcdServer.Lead { lead := 0, otherState := 3 } = noLeaderSentinel ∧
      EtcdLeaderID { Server := some { lead := 0, otherState := 3 } } =
        some (noLeaderSentinel, none) :=
  ⟨rfl, sentinel_passes_through { lead := 0, otherState := 3 } rfl⟩

/-- C3: for every state of the backing engine, the adapter's query
returns a result whose error component is nil — the read never
fails. -/
theorem etcdLeaderID_never_errs (s : EtcdServer) :
    (EtcdLeaderID { Server := some s }).map Prod.snd = some none :=
  rfl

/-- C4: exact pass-through — for every engine state the identifier
returned equals verbatim the engine's `Lead()` value, with the nil
error and nothing else added. -/
theorem etcdLeaderID_passthrough (s : EtcdServer) :
    EtcdLeaderID { Server := some s } = some (EtcdServer.Lead s, none) :=
  rfl

/-- C5: the query mutates nothing — whenever a call completes, the
post-call wrapper (with the backing engine it references) equals the
pre-call one. -/
theorem etcdLeaderID_frame (w : LeaderGetterWrapper)
    (r : Nat × Option GoError) (w' : LeaderGetterWrapper)
    (h : EtcdLeaderIDRun w = some (r, w')) :
    w' = w := by
  unfold EtcdLeaderIDRun at h
  cases hs : w.Server with
  | none => rw [hs] at h; simp at h
  | some s => rw [hs] at h; simp at h; exact h.2.symm

/-- C5 witness: a concrete completed call leaves the state unchanged. -/
theorem etcdLeaderID_frame_witness :
    EtcdLeaderIDRun { Server := some { lead := 7, otherState := 1 } } =
        some ((7, none), { Server := some { lead := 7, otherState := 1 } }) ∧
      ({ Server := some { lead := 7, otherState := 1 } } :
          LeaderGetterWrapper) =
        { Server := some { lead := 7, otherState := 1 } } :=
  ⟨rfl,
    etcdLeaderID_frame { Server := some { lead := 7, otherState := 1 } }
      (7, none) { Server := some { lead := 7, otherState := 1 } } rfl⟩

/-- C6: while the leader field is stable at one value, every one of `n`
independent calls returns the same result, and two runs of `n` calls
against engines agreeing on that leader value coincide: each run is
`n` copies of `(leader, nil)`. -/
theorem repeatedCalls_deterministic (s₁ s₂ : EtcdServer) (n : Nat)
    (h : s₁.Lead = s₂.Lead) :
    repeatedCalls { Server := some s₁ } n =
        List.replicate n (some (s₁.Lead, none)) ∧
      repeatedCalls { Server := some s₁ } n =
        repeatedCalls { Server := some s₂ } n := by
  constructor
  · simp [repeatedCalls, EtcdLeaderID, List.map_const]
  · simp [repeatedCalls, EtcdLeaderID, h]

/-- C6 witness: the spec scenario — 100 calls against a stable leader
value of 42 all return `(42, nil)`, identically across two engines that
share that leader value. -/
theorem repeatedCalls_deterministic_witness :
    EtcdServer.Lead { lead := 42, otherState := 0 } =
        EtcdServer.Lead { lead := 42, otherState := 9 } ∧
      (repeatedCalls { Server := some { lead := 42, otherState := 0 } } 100 =
          List.replicate 100 (some (42, none)) ∧
        repeatedCalls { Server := some { lead := 42, otherState := 0 } } 100 =
          repeatedCalls { Server := some { lead := 42, otherState := 9 } }
            100) :=
  ⟨rfl,
    repeatedCalls_deterministic { lead := 42, otherState := 0 }
      { lead := 42, otherState := 9 } 100 rfl⟩

/-- C7: the query always terminates in bounded, effectively constant
time — its operation trace is a fixed straight line of at most three
primitive steps for every wrapper, with no loop or retry. -/
theorem etcdLeaderID_constant_time (w : LeaderGetterWrapper) :
    (EtcdLeaderIDTrace w).length ≤ 3 := by
  unfold EtcdLeaderIDTrace
  cases w.Server <;> simp

/-- C7 witness: the trace bound at a concrete wrapper. -/
theorem etcdLeaderID_constant_time_witness :
    (EtcdLeaderIDTrace { Server := some { lead := 1, otherState := 0 } }
        ).length ≤ 3 :=
  etcdLeaderID_constant_time { Server := some { lead := 1, otherState := 0 } }

/-- C8: constructing the adapter from any handle — the nil pointer
included — always succeeds, validates nothing, and stores exactly the
supplied handle in the `Server` field. -/
theorem mkWrapper_stores_handle (p : Option EtcdServer) :
    (mkLeaderGetterWrapper p).Server = p :=
  rfl

/-- C9: calling the query on a wrapper whose `Server` handle is nil
produces no `(identifier, error)` result at all — the unguarded
dereference panics, so no ENGINE_UNAVAILABLE-style error value is ever
returned for an unusable handle. -/
theorem etcdLeaderID_nil_handle_panics :
    EtcdLeaderID { Server := none } = none :=
  rfl

/-- C10: noninterference — the query's entire result is a function of
the engine's `Lead()` value alone: two engine states agreeing on it
yield identical results, however much the rest of their state
differs. -/
theorem etcdLeaderID_depends_only_on_lead (s₁ s₂ : EtcdServer)
    (h : EtcdServer.Lead s₁ = EtcdServer.Lead s₂) :
    EtcdLeaderID { Server := some s₁ } = EtcdLeaderID { Server := some s₂ } := by
  simp [EtcdLeaderID, h]

/-- C10 witness: engines sharing `Lead() = 5` but differing elsewhere
give equal results. -/
theorem etcdLeaderID_depends_only_on_lead_witness :
    EtcdServer.Lead { lead := 5, otherState := 0 } =
        EtcdServer.Lead { lead := 5, otherState := 999 } ∧
      EtcdLeaderID { Server := some { lead := 5, otherState := 0 } } =
        EtcdLeaderID { Server := some { lead := 5, otherState := 999 } } :=
  ⟨rfl,
    etcdLeaderID_depends_only_on_lead { lead := 5, otherState := 0 }
      { lead := 5, otherState := 999 } rfl⟩

end Etcdutil
